import Mathlib

/-!
Verification of the seizure-EEG-classifier repository.

The repository is a React/TypeScript EEG demo.  The computational core lives
in `src/services/eegAnalysis.ts`, which concatenates two interchangeable
backend modules: a local demo backend (`analyzeEEGImage` via Gemini,
`analyzeEEGSignal` simulating inference, `parseCSV`) and a remote backend
(`analyzeEEGImage` / `analyzeEEGSignal` POSTing to a Flask stub, plus a second
identical `parseCSV`).  The UI (`App`) renders a clinical-interpretation
sentence from the dominant band.

Modelling conventions:
* JavaScript numbers are modelled as rationals `ℚ`; `Math.sqrt` is modelled by
  `Real.sqrt`, so the standard deviation lives in `ℝ`.  Floating-point
  rounding error, `NaN` and the infinities are outside the model (an
  `Option ℚ` result of `jsParseFloat` plays the role of `NaN`).
* `Math.random()` draws are passed as explicit rational parameters in `[0,1)`,
  and the elapsed wall-clock time of `performance.now()` as an explicit
  parameter, so the stateful/timed JS functions become pure functions of
  (input, random draws, elapsed time).
* `x.toFixed(4)` followed by `parseFloat` is modelled as rounding to four
  decimal places (round half up at exact midpoints).
* JS `||` on numbers treats `0` (and `undefined`) as falsy, on strings `""`
  as falsy; `undefined` is modelled by `Option`.
-/

/-- The `PredictionLabel` enum of `types.ts`: `Seizure`, `Non-Seizure`,
`Uncertain`. -/
inductive PredictionLabel where
  | SEIZURE
  | NON_SEIZURE
  | UNCERTAIN
  deriving DecidableEq, Repr

/-- The `stats` record inside `EEGAnalysisResult` (`mean`, `std`, `entropy`). -/
structure EEGStats where
  mean : ℚ
  std : ℚ
  entropy : ℚ
  deriving DecidableEq, Repr

/-- The `EEGAnalysisResult` interface of `types.ts` (the core fields shared by
both backend variants; the optional remote-only fields are not needed by any
claim).  `dominantBand` and `signalQuality` are TS string unions, modelled as
`String`. -/
structure EEGAnalysisResult where
  prediction : PredictionLabel
  confidence : ℚ
  signalQuality : String
  dominantBand : String
  inferenceTimeMs : ℤ
  stats : EEGStats
  deriving DecidableEq, Repr

/-- The `EEGData` interface of `types.ts`. -/
structure EEGData where
  timestamps : List ℚ
  values : List ℚ
  samplingRate : ℚ
  channel : String
  deriving DecidableEq, Repr

/-- Numeric value of a list of decimal digit characters (most significant
first). -/
def digitsToNat (ds : List Char) : ℕ :=
  ds.foldl (fun a c => a * 10 + (c.toNat - '0'.toNat)) 0

/-- Model of JavaScript `parseFloat`: skip leading whitespace, an optional
sign, then the longest prefix of the form `digits [. digits] [e/E [sign]
digits]` (at least one digit before or after the dot); everything after that
prefix is ignored.  Returns `none` where `parseFloat` returns `NaN`.  The
non-finite literals (`Infinity`) are outside the rational model. -/
def jsParseFloat (s : String) : Option ℚ :=
  let cs := s.data.dropWhile Char.isWhitespace
  let sgn : ℚ := if cs.head? = some '-' then -1 else 1
  let cs1 := if cs.head? = some '-' ∨ cs.head? = some '+' then cs.tail else cs
  let intPart := cs1.takeWhile Char.isDigit
  let cs2 := cs1.drop intPart.length
  let fracPart := if cs2.head? = some '.' then cs2.tail.takeWhile Char.isDigit else []
  let cs3 := if cs2.head? = some '.' then cs2.tail.drop fracPart.length else cs2
  if intPart.isEmpty ∧ fracPart.isEmpty then
    none
  else
    let mant : ℚ := (digitsToNat intPart : ℚ) + (digitsToNat fracPart : ℚ) / 10 ^ fracPart.length
    let expn : ℤ :=
      if cs3.head? = some 'e' ∨ cs3.head? = some 'E' then
        let r := cs3.tail
        let esgn : ℤ := if r.head? = some '-' then -1 else 1
        let r1 := if r.head? = some '-' ∨ r.head? = some '+' then r.tail else r
        let eds := r1.takeWhile Char.isDigit
        if eds.isEmpty then 0 else esgn * (digitsToNat eds : ℤ)
      else 0
    some (sgn * mant * (10 : ℚ) ^ expn)

/-- JS `(n || 1)` on an array length: `0` is falsy. -/
def jsOrOne (n : ℕ) : ℕ := if n = 0 then 1 else n

/-- JS `(x || d)` on a possibly-undefined number: `undefined` and `0` are
falsy. -/
def jsOrNum (x : Option ℚ) (d : ℚ) : ℚ :=
  match x with
  | none => d
  | some v => if v = 0 then d else v

/-- JS `(s || d)` on a possibly-undefined string: `undefined` and `""` are
falsy. -/
def jsOrStr (x : Option String) (d : String) : String :=
  match x with
  | none => d
  | some v => if v = "" then d else v

/-- JS `Math.max(...xs)`: `⊥` models the `-Infinity` returned on an empty
argument list. -/
def jsMax (xs : List ℚ) : WithBot ℚ :=
  xs.foldl (fun (a : WithBot ℚ) (b : ℚ) => max a (b : WithBot ℚ)) ⊥

/-- Rounding a rational to four decimal places:
`parseFloat(x.toFixed(4))` for a finite value. -/
def round4 (q : ℚ) : ℚ := (round (q * 10000) : ℚ) / 10000

/-- Rounding a real to four decimal places (used for the standard deviation,
which passes through `Math.sqrt`). -/
noncomputable def round4R (x : ℝ) : ℚ := ((round (x * 10000) : ℤ) : ℚ) / 10000

namespace LocalBackend

/-- The `mean` of `analyzeEEGSignal` (local demo backend):
`values.reduce((a, b) => a + b, 0) / (values.length || 1)`. -/
def signalMean (values : List ℚ) : ℚ :=
  values.foldl (fun a b => a + b) 0 / (jsOrOne values.length : ℚ)

/-- The `variance` of `analyzeEEGSignal` (local demo backend):
`values.reduce((a, b) => a + Math.pow(b - mean, 2), 0) / (values.length || 1)`. -/
def signalVariance (values : List ℚ) : ℚ :=
  values.foldl (fun a b => a + (b - signalMean values) ^ 2) 0 / (jsOrOne values.length : ℚ)

/-- The `std` of `analyzeEEGSignal` (local demo backend):
`Math.sqrt(variance)`. -/
noncomputable def signalStd (values : List ℚ) : ℝ :=
  Real.sqrt (signalVariance values)

/-- `0.3 < Math.sqrt v` is decided by `0.09 < v` (sound for every sign of
`v`, since `Real.sqrt` of a nonpositive number is `0`). -/
instance decSqrtGt (v : ℚ) : Decidable ((0.3 : ℝ) < Real.sqrt (v : ℝ)) :=
  decidable_of_iff ((9 / 100 : ℚ) < v) (by
    rw [Real.lt_sqrt (by norm_num)]
    constructor
    · intro h
      have : ((9 / 100 : ℚ) : ℝ) < (v : ℝ) := by exact_mod_cast h
      calc (0.3 : ℝ) ^ 2 = ((9 / 100 : ℚ) : ℝ) := by norm_num
        _ < (v : ℝ) := this
    · intro h
      have : ((9 / 100 : ℚ) : ℝ) < (v : ℝ) := by
        calc ((9 / 100 : ℚ) : ℝ) = (0.3 : ℝ) ^ 2 := by norm_num
          _ < (v : ℝ) := h
      exact_mod_cast this)

/-- The `bands` array of `analyzeEEGSignal`. -/
def bands : List String := ["Delta", "Theta", "Alpha", "Beta", "Gamma"]

/-- The seizure test of `analyzeEEGSignal` (local demo backend):
`maxAbs > 0.8 || std > 0.3`, with `maxAbs = Math.max(...values.map(Math.abs))`. -/
def isSeizureCond (values : List ℚ) : Prop :=
  ((0.8 : ℚ) : WithBot ℚ) < jsMax (values.map (fun v => |v|)) ∨
    (0.3 : ℝ) < signalStd values

instance (values : List ℚ) : Decidable (isSeizureCond values) := by
  unfold isSeizureCond signalStd
  infer_instance

/-- The local demo backend `analyzeEEGSignal` of `eegAnalysis.ts`
(lines 77–105).  `randBand` and `randConf` are the two `Math.random()` draws
(band choice, confidence jitter) and `elapsedMs` the elapsed
`performance.now()` time. -/
noncomputable def analyzeEEGSignal (data : EEGData) (randBand randConf : ℚ)
    (elapsedMs : ℚ) : EEGAnalysisResult :=
  let values := data.values
  let mean := signalMean values
  let std := signalStd values
  let dominantBand := bands.getD (Int.toNat ⌊randBand * (bands.length : ℚ)⌋) ""
  let isSeizure := isSeizureCond values
  let confidence : ℚ := if isSeizure then 0.85 + randConf * 0.1 else 0.92 + randConf * 0.05
  { prediction := if isSeizure then .SEIZURE else .NON_SEIZURE
    confidence := confidence * 100
    signalQuality := "Good"
    dominantBand := dominantBand
    inferenceTimeMs := round elapsedMs
    stats :=
      { mean := round4 mean
        std := round4R std
        entropy := 0.74 } }

/-- The raw Gemini JSON response consumed by the local backend
`analyzeEEGImage` (each field may be absent). -/
structure GeminiRawStats where
  mean : Option ℚ
  std : Option ℚ
  entropy : Option ℚ

/-- The parsed `rawJson` of the local backend `analyzeEEGImage`. -/
structure GeminiRaw where
  prediction : Option String
  confidence : Option ℚ
  signalQuality : Option String
  dominantBand : Option String
  stats : Option GeminiRawStats

/-- The result construction of the local backend `analyzeEEGImage`
(`eegAnalysis.ts` lines 59–71), as a function of the parsed response and the
elapsed time. -/
def analyzeEEGImage (rawJson : GeminiRaw) (elapsedMs : ℚ) : EEGAnalysisResult :=
  { prediction := if rawJson.prediction = some "Seizure" then .SEIZURE else .NON_SEIZURE
    confidence := jsOrNum rawJson.confidence 0.9 * 100
    signalQuality := jsOrStr rawJson.signalQuality "Good"
    dominantBand := jsOrStr rawJson.dominantBand "Alpha"
    inferenceTimeMs := round elapsedMs
    stats :=
      { mean := jsOrNum (rawJson.stats.bind (fun s => s.mean)) 0
        std := jsOrNum (rawJson.stats.bind (fun s => s.std)) 0
        entropy := jsOrNum (rawJson.stats.bind (fun s => s.entropy)) 0.75 } }

/-- The local backend `parseCSV` of `eegAnalysis.ts` (lines 107–127): trim,
split into lines, take the first comma-separated field of each line, keep it
when `parseFloat` does not give `NaN`, pushing `index / 256` as timestamp. -/
def parseCSV (content : String) : EEGData :=
  let lines := content.trim.splitOn "\n"
  let acc := lines.enum.foldl
    (fun (acc : List ℚ × List ℚ) (p : ℕ × String) =>
      match jsParseFloat ((p.2.splitOn ",").headD "") with
      | some val => (acc.1 ++ [val], acc.2 ++ [(p.1 : ℚ) / 256])
      | none => acc)
    ([], [])
  { timestamps := acc.2
    values := acc.1
    samplingRate := 256
    channel := "FP1-F7" }

end LocalBackend

namespace RemoteBackend

/-- The parsed JSON body of a successful remote (`Flask`) response, as read by
the remote backend functions (only the core fields; the optional extras are
passed through untouched and are not needed by any claim). -/
structure ApiResponse where
  prediction : Option String
  confidence : ℚ
  signalQuality : String
  dominantBand : String
  inferenceTimeMs : ℤ
  statsMean : ℚ
  statsStd : ℚ
  statsEntropy : ℚ

/-- The result construction of the remote backend `analyzeEEGImage`
(`eegAnalysis.ts` lines 154–171) on a successful (`response.ok`) response;
a non-ok response throws instead of returning a result. -/
def analyzeEEGImage (data : ApiResponse) : EEGAnalysisResult :=
  { prediction := if data.prediction = some "Seizure" then .SEIZURE else .NON_SEIZURE
    confidence := data.confidence
    signalQuality := data.signalQuality
    dominantBand := data.dominantBand
    inferenceTimeMs := data.inferenceTimeMs
    stats :=
      { mean := data.statsMean
        std := data.statsStd
        entropy := data.statsEntropy } }

/-- The result construction of the remote backend `analyzeEEGSignal`
(`eegAnalysis.ts` lines 198–215) on a successful response. -/
def analyzeEEGSignal (result : ApiResponse) : EEGAnalysisResult :=
  { prediction := if result.prediction = some "Seizure" then .SEIZURE else .NON_SEIZURE
    confidence := result.confidence
    signalQuality := result.signalQuality
    dominantBand := result.dominantBand
    inferenceTimeMs := result.inferenceTimeMs
    stats :=
      { mean := result.statsMean
        std := result.statsStd
        entropy := result.statsEntropy } }

/-- The remote backend `parseCSV` of `eegAnalysis.ts` (lines 218–238),
textually identical to the local one. -/
def parseCSV (content : String) : EEGData :=
  let lines := content.trim.splitOn "\n"
  let acc := lines.enum.foldl
    (fun (acc : List ℚ × List ℚ) (p : ℕ × String) =>
      match jsParseFloat ((p.2.splitOn ",").headD "") with
      | some val => (acc.1 ++ [val], acc.2 ++ [(p.1 : ℚ) / 256])
      | none => acc)
    ([], [])
  { timestamps := acc.2
    values := acc.1
    samplingRate := 256
    channel := "FP1-F7" }

end RemoteBackend

namespace App

/-- The `Seizure Type Assessment` block of the `App` component
(`part_000`, lines 989–995): the five conditional JSX fragments
`{result.dominantBand === B && S}`, each rendering its sentence when the
band matches and nothing otherwise.  The value is the list of sentences
rendered for a given `dominantBand`. -/
def seizureTypeAssessment (dominantBand : String) : List String :=
  (if dominantBand = "Delta" then ["Generalized or Focal Onset Seizure"] else []) ++
  (if dominantBand = "Theta" then ["Temporal Lobe / Focal Aware Seizure"] else []) ++
  (if dominantBand = "Alpha" then ["Atypical / Unknown Onset Seizure"] else []) ++
  (if dominantBand = "Beta" then ["Motor / Awareness-Related Seizure"] else []) ++
  (if dominantBand = "Gamma" then ["Critical High-Frequency Discharge"] else [])

end App

section SpecSide

/-- Modelled from the spec: the arithmetic mean of the input values
("stats.mean equal to the arithmetic mean of the input values"). -/
def specMean (values : List ℚ) : ℚ := values.sum / (values.length : ℚ)

/-- Modelled from the spec: the population standard deviation, the square
root of the mean squared deviation from the mean. -/
noncomputable def specStd (values : List ℚ) : ℝ :=
  Real.sqrt (((values.map (fun x => (x - specMean values) ^ 2)).sum : ℚ) / (values.length : ℚ))

end SpecSide

section HelperLemmas

theorem foldl_add_eq_sum (l : List ℚ) (a : ℚ) :
    l.foldl (fun x y => x + y) a = a + l.sum := by
  induction l generalizing a with
  | nil => simp
  | cons b t ih => simp [ih, List.sum_cons]; ring

theorem foldl_add_sq_eq_sum (l : List ℚ) (m a : ℚ) :
    l.foldl (fun x y => x + (y - m) ^ 2) a = a + (l.map (fun y => (y - m) ^ 2)).sum := by
  induction l generalizing a with
  | nil => simp
  | cons b t ih => simp [ih, List.sum_cons]; ring

/-- The local backend `mean` agrees with the spec mean for every input;
on the empty list both are `0` (the code divides by `(length || 1) = 1`,
the spec formula divides `0` by `0`). -/
theorem signalMean_eq_specMean (l : List ℚ) :
    LocalBackend.signalMean l = specMean l := by
  cases l with
  | nil => simp [LocalBackend.signalMean, specMean, jsOrOne]
  | cons b t =>
    simp only [LocalBackend.signalMean, specMean, jsOrOne, List.length_cons]
    rw [foldl_add_eq_sum]
    simp

/-- The local backend `variance` is the mean squared deviation from the
mean (again with the `0/0 = 0` convention agreeing on the empty list). -/
theorem signalVariance_eq (l : List ℚ) :
    LocalBackend.signalVariance l =
      ((l.map (fun x => (x - specMean l) ^ 2)).sum : ℚ) / (l.length : ℚ) := by
  cases l with
  | nil => simp [LocalBackend.signalVariance, jsOrOne]
  | cons b t =>
    simp only [LocalBackend.signalVariance, jsOrOne, List.length_cons,
      signalMean_eq_specMean]
    rw [foldl_add_sq_eq_sum]
    simp

/-- The local backend `std` is the spec's population standard deviation. -/
theorem signalStd_eq_specStd (l : List ℚ) :
    LocalBackend.signalStd l = specStd l := by
  unfold LocalBackend.signalStd specStd
  rw [signalVariance_eq]
  norm_cast

/-- A strict lower bound on the JS max of a list holds iff some element
exceeds the bound (false on the empty list, where `Math.max()` is
`-Infinity`). -/
theorem lt_jsMax_aux (c : ℚ) (l : List ℚ) (a : WithBot ℚ) :
    ((c : WithBot ℚ) < l.foldl (fun (x : WithBot ℚ) (y : ℚ) => max x (y : WithBot ℚ)) a) ↔
      ((c : WithBot ℚ) < a ∨ ∃ v ∈ l, c < v) := by
  induction l generalizing a with
  | nil => simp
  | cons b t ih =>
    rw [List.foldl_cons, ih]
    constructor
    · rintro (h | ⟨v, hv, hcv⟩)
      · rcases lt_max_iff.1 h with h | h
        · exact Or.inl h
        · exact Or.inr ⟨b, List.mem_cons_self b t, WithBot.coe_lt_coe.1 h⟩
      · exact Or.inr ⟨v, List.mem_cons_of_mem _ hv, hcv⟩
    · rintro (h | ⟨v, hv, hcv⟩)
      · exact Or.inl (lt_max_iff.2 (Or.inl h))
      · rcases List.mem_cons.1 hv with rfl | hv
        · exact Or.inl (lt_max_iff.2 (Or.inr (WithBot.coe_lt_coe.2 hcv)))
        · exact Or.inr ⟨v, hv, hcv⟩

theorem lt_jsMax_iff (c : ℚ) (l : List ℚ) :
    (c : WithBot ℚ) < jsMax l ↔ ∃ v ∈ l, c < v := by
  rw [jsMax, lt_jsMax_aux]
  simp

/-- The seizure condition of the local backend, characterised by the spec's
words: some value has absolute value above `0.8`, or the population standard
deviation is above `0.3`. -/
theorem isSeizureCond_iff (l : List ℚ) :
    LocalBackend.isSeizureCond l ↔
      (∃ v ∈ l, (0.8 : ℚ) < |v|) ∨ (0.3 : ℝ) < specStd l := by
  unfold LocalBackend.isSeizureCond
  rw [signalStd_eq_specStd, lt_jsMax_iff]
  constructor
  · rintro (⟨v, hv, hcv⟩ | h)
    · obtain ⟨w, hw, rfl⟩ := List.mem_map.1 hv
      exact Or.inl ⟨w, hw, hcv⟩
    · exact Or.inr h
  · rintro (⟨v, hv, hcv⟩ | h)
    · exact Or.inl ⟨|v|, List.mem_map.2 ⟨v, hv, rfl⟩, hcv⟩
    · exact Or.inr h

theorem analyzeEEGSignal_prediction (d : EEGData) (rB rC t : ℚ) :
    (LocalBackend.analyzeEEGSignal d rB rC t).prediction =
      if LocalBackend.isSeizureCond d.values then .SEIZURE else .NON_SEIZURE := rfl

theorem analyzeEEGSignal_confidence (d : EEGData) (rB rC t : ℚ) :
    (LocalBackend.analyzeEEGSignal d rB rC t).confidence =
      (if LocalBackend.isSeizureCond d.values then 0.85 + rC * 0.1
       else 0.92 + rC * 0.05) * 100 := rfl

theorem analyzeEEGSignal_dominantBand (d : EEGData) (rB rC t : ℚ) :
    (LocalBackend.analyzeEEGSignal d rB rC t).dominantBand =
      LocalBackend.bands.getD
        (Int.toNat ⌊rB * (LocalBackend.bands.length : ℚ)⌋) "" := rfl

theorem analyzeEEGSignal_entropy (d : EEGData) (rB rC t : ℚ) :
    (LocalBackend.analyzeEEGSignal d rB rC t).stats.entropy = 0.74 := rfl

theorem analyzeEEGSignal_mean (d : EEGData) (rB rC t : ℚ) :
    (LocalBackend.analyzeEEGSignal d rB rC t).stats.mean =
      round4 (LocalBackend.signalMean d.values) := rfl

theorem analyzeEEGSignal_std (d : EEGData) (rB rC t : ℚ) :
    (LocalBackend.analyzeEEGSignal d rB rC t).stats.std =
      round4R (LocalBackend.signalStd d.values) := rfl

/-- The `forEach` push loop of `parseCSV`, characterised as two `filterMap`s
over the enumerated lines: a line contributes its parsed first field to
`values`, and its index over `256` to `timestamps`, exactly when the first
field parses. -/
theorem parseCSV_fold (ps : List (ℕ × String)) (acc : List ℚ × List ℚ) :
    ps.foldl
      (fun (acc : List ℚ × List ℚ) (p : ℕ × String) =>
        match jsParseFloat ((p.2.splitOn ",").headD "") with
        | some val => (acc.1 ++ [val], acc.2 ++ [(p.1 : ℚ) / 256])
        | none => acc) acc =
      (acc.1 ++ ps.filterMap (fun p => jsParseFloat ((p.2.splitOn ",").headD "")),
       acc.2 ++ ps.filterMap (fun p =>
         if (jsParseFloat ((p.2.splitOn ",").headD "")).isSome
         then some ((p.1 : ℚ) / 256) else none)) := by
  induction ps generalizing acc with
  | nil => simp
  | cons p t ih =>
    rw [List.foldl_cons]
    cases hp : jsParseFloat ((p.2.splitOn ",").headD "") with
    | none =>
      rw [List.filterMap_cons, List.filterMap_cons, hp]
      simp only [hp, Option.isSome_none, Bool.false_eq_true, if_false]
      exact ih acc
    | some v =>
      rw [List.filterMap_cons, List.filterMap_cons, hp]
      simp only [hp, Option.isSome_some, if_true]
      rw [ih]
      simp

/-- Filtering the enumerated list with a function that ignores the index is
filtering the list itself. -/
theorem enumFrom_filterMap_parse (l : List String) :
    ∀ n : ℕ,
      (List.enumFrom n l).filterMap
          (fun p => jsParseFloat ((p.2.splitOn ",").headD "")) =
        l.filterMap (fun line => jsParseFloat ((line.splitOn ",").headD "")) := by
  induction l with
  | nil => intro n; rfl
  | cons a t ih =>
    intro n
    rw [List.enumFrom, List.filterMap_cons, List.filterMap_cons]
    cases hp : jsParseFloat ((a.splitOn ",").headD "") with
    | none => exact ih (n + 1)
    | some b => rw [ih (n + 1)]

theorem parseCSV_values (s : String) :
    (LocalBackend.parseCSV s).values =
      (s.trim.splitOn "\n").filterMap
        (fun line => jsParseFloat ((line.splitOn ",").headD "")) := by
  show ((s.trim.splitOn "\n").enum.foldl _ ([], [])).1 = _
  rw [parseCSV_fold]
  rw [List.enum]
  rw [enumFrom_filterMap_parse]
  simp

theorem parseCSV_timestamps (s : String) :
    (LocalBackend.parseCSV s).timestamps =
      (s.trim.splitOn "\n").enum.filterMap
        (fun p => if (jsParseFloat ((p.2.splitOn ",").headD "")).isSome
          then some ((p.1 : ℚ) / 256) else none) := by
  show ((s.trim.splitOn "\n").enum.foldl _ ([], [])).2 = _
  rw [parseCSV_fold]
  simp

theorem analyzeEEGImage_local_prediction (raw : LocalBackend.GeminiRaw) (t : ℚ) :
    (LocalBackend.analyzeEEGImage raw t).prediction =
      if raw.prediction = some "Seizure" then .SEIZURE else .NON_SEIZURE := rfl

theorem analyzeEEGImage_remote_prediction (resp : RemoteBackend.ApiResponse) :
    (RemoteBackend.analyzeEEGImage resp).prediction =
      if resp.prediction = some "Seizure" then .SEIZURE else .NON_SEIZURE := rfl

theorem analyzeEEGSignal_remote_prediction (resp : RemoteBackend.ApiResponse) :
    (RemoteBackend.analyzeEEGSignal resp).prediction =
      if resp.prediction = some "Seizure" then .SEIZURE else .NON_SEIZURE := rfl

end HelperLemmas

/-- C1: for every `EEGData` input (and every random draw and elapsed time),
the local demo backend `analyzeEEGSignal` labels the signal `SEIZURE` exactly
when some input value has absolute value above `0.8` or the population
standard deviation is above `0.3`, and `NON_SEIZURE` otherwise. -/
theorem C1_threshold_labeling (d : EEGData) (randBand randConf elapsedMs : ℚ) :
    ((LocalBackend.analyzeEEGSignal d randBand randConf elapsedMs).prediction =
        PredictionLabel.SEIZURE ↔
      ((∃ v ∈ d.values, (0.8 : ℚ) < |v|) ∨ (0.3 : ℝ) < specStd d.values)) ∧
    ((LocalBackend.analyzeEEGSignal d randBand randConf elapsedMs).prediction =
        PredictionLabel.NON_SEIZURE ↔
      ¬ ((∃ v ∈ d.values, (0.8 : ℚ) < |v|) ∨ (0.3 : ℝ) < specStd d.values)) := by
  rw [analyzeEEGSignal_prediction]
  by_cases h : LocalBackend.isSeizureCond d.values
  · rw [if_pos h]
    constructor
    · exact ⟨fun _ => (isSeizureCond_iff d.values).1 h, fun _ => rfl⟩
    · constructor
      · intro heq
        exact PredictionLabel.noConfusion heq
      · intro hn
        exact absurd ((isSeizureCond_iff d.values).1 h) hn
  · rw [if_neg h]
    constructor
    · constructor
      · intro heq
        exact PredictionLabel.noConfusion heq
      · intro hc
        exact absurd ((isSeizureCond_iff d.values).2 hc) h
    · exact ⟨fun _ hc => h ((isSeizureCond_iff d.values).2 hc),
        fun _ => rfl⟩

/-- C2 counterexample: on one and the same `EEGData`, two runs of the local
demo backend `analyzeEEGSignal` that differ only in the `Math.random()` band
draw report different dominant bands (`Delta` for draw `0`, `Alpha` for draw
`1/2`), so the dominant band is not a deterministic function of the input
values. -/
theorem C2_counterexample :
    (LocalBackend.analyzeEEGSignal ⟨[0], [1/10], 256, "FP1-F7"⟩ 0 0 0).dominantBand ≠
      (LocalBackend.analyzeEEGSignal ⟨[0], [1/10], 256, "FP1-F7"⟩ (1/2) 0 0).dominantBand := by
  rw [analyzeEEGSignal_dominantBand, analyzeEEGSignal_dominantBand]
  have h0 : (⌊(0 : ℚ) * (LocalBackend.bands.length : ℚ)⌋).toNat = 0 := by
    norm_num
  have h2 : (⌊(1 / 2 : ℚ) * (LocalBackend.bands.length : ℚ)⌋).toNat = 2 := by
    norm_num [LocalBackend.bands]
    rfl
  rw [h0, h2]
  decide

/-- C2 (amended): the dominant band reported by the local demo backend
`analyzeEEGSignal` is not computed from the signal at all: it is selected by
the uniform random band draw alone, so any two runs sharing the same draw
report the same band regardless of their input values, while two runs on the
same input with different draws may differ. -/
theorem C2_band_independent_of_signal (d₁ d₂ : EEGData) (rB rC₁ rC₂ t₁ t₂ : ℚ) :
    (LocalBackend.analyzeEEGSignal d₁ rB rC₁ t₁).dominantBand =
      (LocalBackend.analyzeEEGSignal d₂ rB rC₂ t₂).dominantBand := by
  rw [analyzeEEGSignal_dominantBand, analyzeEEGSignal_dominantBand]

/-- C3 counterexample: there are no two inputs on which the local demo
backend reports different entropies; `stats.entropy` never varies with the
signal. -/
theorem C3_counterexample :
    ¬ ∃ (d₁ d₂ : EEGData) (rB₁ rC₁ t₁ rB₂ rC₂ t₂ : ℚ),
      (LocalBackend.analyzeEEGSignal d₁ rB₁ rC₁ t₁).stats.entropy ≠
        (LocalBackend.analyzeEEGSignal d₂ rB₂ rC₂ t₂).stats.entropy := by
  rintro ⟨d₁, d₂, rB₁, rC₁, t₁, rB₂, rC₂, t₂, h⟩
  rw [analyzeEEGSignal_entropy, analyzeEEGSignal_entropy] at h
  exact h rfl

/-- C3 (amended): the entropy returned by the local demo backend
`analyzeEEGSignal` is not computed from the input values: it is the hard-coded
constant `0.74` for every input, random draw and elapsed time. -/
theorem C3_entropy_constant (d : EEGData) (rB rC t : ℚ) :
    (LocalBackend.analyzeEEGSignal d rB rC t).stats.entropy = 0.74 :=
  analyzeEEGSignal_entropy d rB rC t

/-- C5: the clinical-interpretation block of the `App` component renders, for
each of the five dominant bands, exactly the one hard-coded seizure-type
sentence of that band. -/
theorem C5_clinical_mapping :
    App.seizureTypeAssessment "Delta" = ["Generalized or Focal Onset Seizure"] ∧
    App.seizureTypeAssessment "Theta" = ["Temporal Lobe / Focal Aware Seizure"] ∧
    App.seizureTypeAssessment "Alpha" = ["Atypical / Unknown Onset Seizure"] ∧
    App.seizureTypeAssessment "Beta" = ["Motor / Awareness-Related Seizure"] ∧
    App.seizureTypeAssessment "Gamma" = ["Critical High-Frequency Discharge"] := by
  refine ⟨?_, ?_, ?_, ?_, ?_⟩ <;> rfl

/-- C9: for every input and every confidence draw `randConf ∈ [0,1)`, the
confidence reported by the local demo backend lies in `[85, 97)`; seizure
results lie in `[85, 95)` and non-seizure results in `[92, 97)`. -/
theorem C9_confidence_bounds (d : EEGData) (rB rC t : ℚ)
    (h0 : 0 ≤ rC) (h1 : rC < 1) :
    (85 ≤ (LocalBackend.analyzeEEGSignal d rB rC t).confidence ∧
      (LocalBackend.analyzeEEGSignal d rB rC t).confidence < 97) ∧
    ((LocalBackend.analyzeEEGSignal d rB rC t).prediction = PredictionLabel.SEIZURE →
      85 ≤ (LocalBackend.analyzeEEGSignal d rB rC t).confidence ∧
        (LocalBackend.analyzeEEGSignal d rB rC t).confidence < 95) ∧
    ((LocalBackend.analyzeEEGSignal d rB rC t).prediction = PredictionLabel.NON_SEIZURE →
      92 ≤ (LocalBackend.analyzeEEGSignal d rB rC t).confidence ∧
        (LocalBackend.analyzeEEGSignal d rB rC t).confidence < 97) := by
  rw [analyzeEEGSignal_confidence, analyzeEEGSignal_prediction]
  by_cases h : LocalBackend.isSeizureCond d.values
  · rw [if_pos h, if_pos h]
    refine ⟨⟨by nlinarith, by nlinarith⟩, fun _ => ⟨by nlinarith, by nlinarith⟩,
      fun heq => PredictionLabel.noConfusion heq⟩
  · rw [if_neg h, if_neg h]
    refine ⟨⟨by nlinarith, by nlinarith⟩,
      fun heq => PredictionLabel.noConfusion heq,
      fun _ => ⟨by nlinarith, by nlinarith⟩⟩

/-- C9 witness: the bounds instantiated at a concrete input and the draw
`randConf = 0`. -/
theorem C9_confidence_bounds_witness :
    (85 ≤ (LocalBackend.analyzeEEGSignal ⟨[0], [1/10], 256, "FP1-F7"⟩ 0 0 0).confidence ∧
      (LocalBackend.analyzeEEGSignal ⟨[0], [1/10], 256, "FP1-F7"⟩ 0 0 0).confidence < 97) ∧
    ((LocalBackend.analyzeEEGSignal ⟨[0], [1/10], 256, "FP1-F7"⟩ 0 0 0).prediction =
        PredictionLabel.SEIZURE →
      85 ≤ (LocalBackend.analyzeEEGSignal ⟨[0], [1/10], 256, "FP1-F7"⟩ 0 0 0).confidence ∧
        (LocalBackend.analyzeEEGSignal ⟨[0], [1/10], 256, "FP1-F7"⟩ 0 0 0).confidence < 95) ∧
    ((LocalBackend.analyzeEEGSignal ⟨[0], [1/10], 256, "FP1-F7"⟩ 0 0 0).prediction =
        PredictionLabel.NON_SEIZURE →
      92 ≤ (LocalBackend.analyzeEEGSignal ⟨[0], [1/10], 256, "FP1-F7"⟩ 0 0 0).confidence ∧
        (LocalBackend.analyzeEEGSignal ⟨[0], [1/10], 256, "FP1-F7"⟩ 0 0 0).confidence < 97) :=
  C9_confidence_bounds ⟨[0], [1/10], 256, "FP1-F7"⟩ 0 0 0 (by norm_num) (by norm_num)

/-- C10: no analysis function of either backend ever returns the `UNCERTAIN`
label: for every input, random draw and backend response, the prediction of
`analyzeEEGSignal` and `analyzeEEGImage` (local and remote variants) is either
`SEIZURE` or `NON_SEIZURE`. -/
theorem C10_no_uncertain :
    (∀ (raw : LocalBackend.GeminiRaw) (t : ℚ),
      (LocalBackend.analyzeEEGImage raw t).prediction = PredictionLabel.SEIZURE ∨
        (LocalBackend.analyzeEEGImage raw t).prediction = PredictionLabel.NON_SEIZURE) ∧
    (∀ (d : EEGData) (rB rC t : ℚ),
      (LocalBackend.analyzeEEGSignal d rB rC t).prediction = PredictionLabel.SEIZURE ∨
        (LocalBackend.analyzeEEGSignal d rB rC t).prediction = PredictionLabel.NON_SEIZURE) ∧
    (∀ resp : RemoteBackend.ApiResponse,
      (RemoteBackend.analyzeEEGImage resp).prediction = PredictionLabel.SEIZURE ∨
        (RemoteBackend.analyzeEEGImage resp).prediction = PredictionLabel.NON_SEIZURE) ∧
    (∀ resp : RemoteBackend.ApiResponse,
      (RemoteBackend.analyzeEEGSignal resp).prediction = PredictionLabel.SEIZURE ∨
        (RemoteBackend.analyzeEEGSignal resp).prediction = PredictionLabel.NON_SEIZURE) := by
  refine ⟨fun raw t => ?_, fun d rB rC t => ?_, fun resp => ?_, fun resp => ?_⟩
  · rw [analyzeEEGImage_local_prediction]
    by_cases h : raw.prediction = some "Seizure"
    · exact Or.inl (by rw [if_pos h])
    · exact Or.inr (by rw [if_neg h])
  · rw [analyzeEEGSignal_prediction]
    by_cases h : LocalBackend.isSeizureCond d.values
    · exact Or.inl (by rw [if_pos h])
    · exact Or.inr (by rw [if_neg h])
  · rw [analyzeEEGImage_remote_prediction]
    by_cases h : resp.prediction = some "Seizure"
    · exact Or.inl (by rw [if_pos h])
    · exact Or.inr (by rw [if_neg h])
  · rw [analyzeEEGSignal_remote_prediction]
    by_cases h : resp.prediction = some "Seizure"
    · exact Or.inl (by rw [if_pos h])
    · exact Or.inr (by rw [if_neg h])

/-- C4: for every input with at least one value, the local demo backend
reports `stats.mean` equal to the arithmetic mean of the input values and
`stats.std` equal to the population standard deviation (the square root of
the mean squared deviation from the mean), each rounded to four decimal
places. -/
theorem C4_mean_std (d : EEGData) (rB rC t : ℚ) (_h : d.values ≠ []) :
    (LocalBackend.analyzeEEGSignal d rB rC t).stats.mean = round4 (specMean d.values) ∧
    (LocalBackend.analyzeEEGSignal d rB rC t).stats.std = round4R (specStd d.values) := by
  rw [analyzeEEGSignal_mean, analyzeEEGSignal_std,
    signalMean_eq_specMean, signalStd_eq_specStd]
  exact ⟨rfl, rfl⟩

/-- C4 witness: on the two-sample input `[1, 3]` the mean is `2` and the
population standard deviation is `1`, both fixed points of the rounding. -/
theorem C4_mean_std_witness :
    (([1, 3] : List ℚ) ≠ []) ∧
    (LocalBackend.analyzeEEGSignal ⟨[], [1, 3], 256, "FP1-F7"⟩ 0 0 0).stats.mean = 2 ∧
    (LocalBackend.analyzeEEGSignal ⟨[], [1, 3], 256, "FP1-F7"⟩ 0 0 0).stats.std = 1 := by
  have h := C4_mean_std ⟨[], [1, 3], 256, "FP1-F7"⟩ 0 0 0 (by decide)
  refine ⟨by decide, ?_, ?_⟩
  · rw [h.1]
    have hm : specMean ([1, 3] : List ℚ) = 2 := by
      simp [specMean]
      norm_num
    rw [hm, round4]
    rw [show ((2 : ℚ) * 10000) = ((20000 : ℤ) : ℚ) by norm_num, round_intCast]
    norm_num
  · rw [h.2]
    have hs : specStd ([1, 3] : List ℚ) = 1 := by
      have hm : specMean ([1, 3] : List ℚ) = 2 := by
        simp [specMean]
        norm_num
      rw [specStd, hm, Real.sqrt_eq_one]
      push_cast
      norm_num [List.sum_cons]
    rw [hs, round4R]
    rw [show ((1 : ℝ) * 10000) = ((10000 : ℤ) : ℝ) by norm_num, round_intCast]
    norm_num

/-- C6: the two `parseCSV` definitions, one in each backend half of
`eegAnalysis.ts`, are extensionally equal: they return the same `EEGData`
(values, timestamps, sampling rate and channel) on every input string. -/
theorem C6_parseCSV_duplicates_agree (s : String) :
    LocalBackend.parseCSV s = RemoteBackend.parseCSV s := rfl

/-- C7: `parseCSV` never fails: it totally maps every input string to an
`EEGData`, a line contributes a value exactly when the first comma-separated
field of the line parses to a number under `jsParseFloat`, and the
non-parsing lines are omitted from both `values` and `timestamps`. -/
theorem C7_parse_skips_malformed (s : String) :
    (LocalBackend.parseCSV s).values =
      (s.trim.splitOn "\n").filterMap
        (fun line => jsParseFloat ((line.splitOn ",").headD "")) ∧
    (LocalBackend.parseCSV s).timestamps =
      (s.trim.splitOn "\n").enum.filterMap
        (fun p => if (jsParseFloat ((p.2.splitOn ",").headD "")).isSome
          then some ((p.1 : ℚ) / 256) else none) :=
  ⟨parseCSV_values s, parseCSV_timestamps s⟩

/-- C8: on an input with no values, the local demo backend does not fail:
it reports `NON_SEIZURE` with mean `0` and standard deviation `0`
(`Math.max()` of no arguments is `-Infinity`, which is below the `0.8`
threshold, and both divisions fall back to the `(length || 1) = 1`
denominator). -/
theorem C8_empty_input (d : EEGData) (rB rC t : ℚ) (h : d.values = []) :
    (LocalBackend.analyzeEEGSignal d rB rC t).prediction = PredictionLabel.NON_SEIZURE ∧
    (LocalBackend.analyzeEEGSignal d rB rC t).stats.mean = 0 ∧
    (LocalBackend.analyzeEEGSignal d rB rC t).stats.std = 0 := by
  rw [analyzeEEGSignal_prediction, analyzeEEGSignal_mean, analyzeEEGSignal_std, h]
  have hcond : ¬ LocalBackend.isSeizureCond [] := by
    rw [isSeizureCond_iff]
    rintro (⟨v, hv, _⟩ | hstd)
    · exact absurd hv (List.not_mem_nil v)
    · rw [show specStd ([] : List ℚ) = 0 by
        simp [specStd, specMean]] at hstd
      norm_num at hstd
  refine ⟨by rw [if_neg hcond], ?_, ?_⟩
  · rw [show LocalBackend.signalMean [] = 0 by
      simp [LocalBackend.signalMean, jsOrOne]]
    rw [round4]
    norm_num
  · rw [show LocalBackend.signalStd [] = 0 by
      simp [LocalBackend.signalStd, LocalBackend.signalVariance, jsOrOne]]
    rw [round4R]
    norm_num

/-- C8 witness: the empty-values input, as produced by a CSV with no
parseable numbers, labels `NON_SEIZURE` with zero mean and zero standard
deviation. -/
theorem C8_empty_input_witness :
    (LocalBackend.analyzeEEGSignal ⟨[], [], 256, "FP1-F7"⟩ 0 0 0).prediction =
        PredictionLabel.NON_SEIZURE ∧
    (LocalBackend.analyzeEEGSignal ⟨[], [], 256, "FP1-F7"⟩ 0 0 0).stats.mean = 0 ∧
    (LocalBackend.analyzeEEGSignal ⟨[], [], 256, "FP1-F7"⟩ 0 0 0).stats.std = 0 :=
  C8_empty_input ⟨[], [], 256, "FP1-F7"⟩ 0 0 0 rfl
